import Mathlib

/-!
Shallow embedding of `src/backend/server.py`, a FastAPI + MongoDB feedback and
suggestion intake service.  The Mongo document store is modelled as two Lean
lists (collections `feedback` and `suggestions`) inside a `Store` record;
Mongo's `find`, `find_one`, `update_one`, `count_documents`, `sort`, `skip`
and `limit` are modelled by the corresponding list operations.  Timestamps
(`datetime.utcnow`) are modelled as natural numbers, one instant per request;
`uuid.uuid4()` is modelled by passing the freshly generated identifier string
to the handler.  Pydantic request validation is modelled by explicit parsing
functions from raw payload records whose fields are all optional.
-/

namespace FeedbackApp

/-- The FeedbackCategory enum of server.py, constructors in declaration order. -/
inductive FeedbackCategory where
  | user_interface
  | social_features
  | content
  | functionality
  | performance
  | security
  | accessibility
  | other
deriving DecidableEq, Repr

/-- Declaration-order enumeration of the 8 categories, as Python's
`for category in FeedbackCategory` iterates them. -/
def FeedbackCategory.all : List FeedbackCategory :=
  [.user_interface, .social_features, .content, .functionality,
   .performance, .security, .accessibility, .other]

/-- Parse the string value of a raw payload into a category, as pydantic does
for `str`-valued enums.  Returns `none` for a value outside the fixed set. -/
def FeedbackCategory.ofString (s : String) : Option FeedbackCategory :=
  if s = "user_interface" then some .user_interface
  else if s = "social_features" then some .social_features
  else if s = "content" then some .content
  else if s = "functionality" then some .functionality
  else if s = "performance" then some .performance
  else if s = "security" then some .security
  else if s = "accessibility" then some .accessibility
  else if s = "other" then some .other
  else none

/-- The FeedbackStatus enum of server.py. -/
inductive FeedbackStatus where
  | pending
  | reviewed
  | in_progress
  | resolved
  | closed
deriving DecidableEq, Repr

/-- Parse a raw status string, as pydantic does. -/
def FeedbackStatus.ofString (s : String) : Option FeedbackStatus :=
  if s = "pending" then some .pending
  else if s = "reviewed" then some .reviewed
  else if s = "in_progress" then some .in_progress
  else if s = "resolved" then some .resolved
  else if s = "closed" then some .closed
  else none

/-- The FeedbackType enum of server.py. -/
inductive FeedbackType where
  | feedback
  | suggestion
  | bug_report
  | feature_request
deriving DecidableEq, Repr

/-- Parse a raw type string, as pydantic does. -/
def FeedbackType.ofString (s : String) : Option FeedbackType :=
  if s = "feedback" then some .feedback
  else if s = "suggestion" then some .suggestion
  else if s = "bug_report" then some .bug_report
  else if s = "feature_request" then some .feature_request
  else none

/-- The Priority enum of server.py. -/
inductive Priority where
  | low
  | medium
  | high
  | urgent
deriving DecidableEq, Repr

/-- The FeedbackCreate pydantic model (= FeedbackBase): the submission fields
only, already validated.  `rating` carries the `ge=1, le=5` constraint at
validation time (see `parseFeedbackCreate`). -/
structure FeedbackCreate where
  title : String
  description : String
  category : FeedbackCategory
  type : FeedbackType
  rating : Option Int := none
  is_anonymous : Bool := false
  user_email : Option String := none
  user_name : Option String := none
deriving DecidableEq, Repr

/-- The Feedback pydantic model / stored document shape. -/
structure Feedback where
  id : String
  title : String
  description : String
  category : FeedbackCategory
  type : FeedbackType
  rating : Option Int
  is_anonymous : Bool
  user_email : Option String
  user_name : Option String
  status : FeedbackStatus
  priority : Priority
  created_at : Nat
  updated_at : Nat
  admin_notes : Option String
  admin_response : Option String
deriving DecidableEq, Repr

/-- The FeedbackUpdate pydantic model.  A `some` field is one the client
explicitly provided; `none` means the field was unset in the PATCH body
(pydantic `exclude_unset=True` drops it from the update dict). -/
structure FeedbackUpdate where
  status : Option FeedbackStatus := none
  priority : Option Priority := none
  admin_notes : Option String := none
  admin_response : Option String := none
deriving DecidableEq, Repr

/-- The SuggestionCreate pydantic model (= SuggestionBase). -/
structure SuggestionCreate where
  title : String
  description : String
  category : FeedbackCategory
  rating : Option Int := none
  is_anonymous : Bool := false
  user_email : Option String := none
  user_name : Option String := none
  expected_benefit : Option String := none
deriving DecidableEq, Repr

/-- The Suggestion pydantic model / stored document shape. -/
structure Suggestion where
  id : String
  title : String
  description : String
  category : FeedbackCategory
  rating : Option Int
  is_anonymous : Bool
  user_email : Option String
  user_name : Option String
  expected_benefit : Option String
  status : FeedbackStatus
  priority : Priority
  created_at : Nat
  updated_at : Nat
  admin_notes : Option String
  admin_response : Option String
  votes : Nat
deriving DecidableEq, Repr

/-- The CategoryStats response model.  `average_rating` is a rational to model
Python float division exactly; `none` models JSON null / absent. -/
structure CategoryStats where
  category : FeedbackCategory
  feedback_count : Nat
  suggestion_count : Nat
  average_rating : Option Rat := none
deriving DecidableEq, Repr

/-- The document store: the two Mongo collections the feedback domain uses,
in insertion order (Mongo natural order for unindexed finds). -/
structure Store where
  feedback : List Feedback
  suggestions : List Suggestion
deriving DecidableEq, Repr

/-- Errors a handler can signal: HTTPException 404 (notFound) versus a
pydantic request-validation rejection 422 (validationError); serverError
models an uncaught exception (HTTP 500), used only on unreachable paths. -/
inductive ApiError where
  | notFound (detail : String)
  | validationError (detail : String)
  | serverError (detail : String)
deriving DecidableEq, Repr

/-- One key-value pair of a Mongo filter dict used by this service. -/
inductive FCond where
  | byStatus (s : FeedbackStatus)
  | byCategory (c : FeedbackCategory)
  | byPriority (p : Priority)
  | byType (t : FeedbackType)
deriving DecidableEq, Repr

/-- Whether a feedback document matches one filter condition. -/
def FCond.holdsF (f : Feedback) : FCond → Bool
  | .byStatus s => f.status = s
  | .byCategory c => f.category = c
  | .byPriority p => f.priority = p
  | .byType t => f.type = t

/-- Whether a suggestion document matches one filter condition.  Suggestion
documents have no `type` key, and Mongo equality on a missing key fails. -/
def FCond.holdsS (x : Suggestion) : FCond → Bool
  | .byStatus s => x.status = s
  | .byCategory c => x.category = c
  | .byPriority p => x.priority = p
  | .byType _ => false

/-- Mongo `find(filter_dict)` on the feedback collection: the documents, in
natural order, matching every condition of the dict. -/
def mongoFindF (l : List Feedback) (conds : List FCond) : List Feedback :=
  l.filter (fun f => conds.all (FCond.holdsF f))

/-- Mongo `find(filter_dict)` on the suggestions collection. -/
def mongoFindS (l : List Suggestion) (conds : List FCond) : List Suggestion :=
  l.filter (fun x => conds.all (FCond.holdsS x))

/-- Mongo `count_documents(filter_dict)` on the feedback collection. -/
def mongoCountF (l : List Feedback) (conds : List FCond) : Nat :=
  (mongoFindF l conds).length

/-- Mongo `count_documents(filter_dict)` on the suggestions collection. -/
def mongoCountS (l : List Suggestion) (conds : List FCond) : Nat :=
  (mongoFindS l conds).length

/-- Mongo `update_one`: apply `f` to the first document matching `p`, leaving
every other document untouched. -/
def updateOne {α : Type} (p : α → Bool) (f : α → α) : List α → List α
  | [] => []
  | x :: xs => if p x then f x :: xs else x :: updateOne p f xs

/-- Handler `create_feedback` (POST /api/feedback), after validation:
construct the Feedback object with its server-side defaults and insert it.
`freshId` is the `str(uuid.uuid4())` value, `now` the `datetime.utcnow()`
instant of this request. -/
def create_feedback (fb : FeedbackCreate) (freshId : String) (now : Nat)
    (s : Store) : Feedback × Store :=
  let obj : Feedback :=
    { id := freshId
      title := fb.title
      description := fb.description
      category := fb.category
      type := fb.type
      rating := fb.rating
      is_anonymous := fb.is_anonymous
      user_email := fb.user_email
      user_name := fb.user_name
      status := .pending
      priority := .medium
      created_at := now
      updated_at := now
      admin_notes := none
      admin_response := none }
  (obj, { s with feedback := s.feedback ++ [obj] })

/-- Handler `create_suggestion` (POST /api/suggestions), after validation. -/
def create_suggestion (sg : SuggestionCreate) (freshId : String) (now : Nat)
    (s : Store) : Suggestion × Store :=
  let obj : Suggestion :=
    { id := freshId
      title := sg.title
      description := sg.description
      category := sg.category
      rating := sg.rating
      is_anonymous := sg.is_anonymous
      user_email := sg.user_email
      user_name := sg.user_name
      expected_benefit := sg.expected_benefit
      status := .pending
      priority := .medium
      created_at := now
      updated_at := now
      admin_notes := none
      admin_response := none
      votes := 0 }
  (obj, { s with suggestions := s.suggestions ++ [obj] })

/-- The default of the `limit` query parameter of both listing endpoints. -/
def listing_default_limit : Nat := 50

/-- Handler `get_feedback` builds `filter_dict` by adding one key per provided
query parameter, in the order of the source. -/
def buildFeedbackFilter (status : Option FeedbackStatus)
    (category : Option FeedbackCategory) (priority : Option Priority)
    (feedback_type : Option FeedbackType) : List FCond :=
  let d : List FCond := []
  let d := match status with | some v => d ++ [.byStatus v] | none => d
  let d := match category with | some v => d ++ [.byCategory v] | none => d
  let d := match priority with | some v => d ++ [.byPriority v] | none => d
  let d := match feedback_type with | some v => d ++ [.byType v] | none => d
  d

/-- Handler `get_suggestions` builds its `filter_dict` the same way, without
the type key. -/
def buildSuggestionFilter (status : Option FeedbackStatus)
    (category : Option FeedbackCategory) (priority : Option Priority) :
    List FCond :=
  let d : List FCond := []
  let d := match status with | some v => d ++ [.byStatus v] | none => d
  let d := match category with | some v => d ++ [.byCategory v] | none => d
  let d := match priority with | some v => d ++ [.byPriority v] | none => d
  d

/-- Handler `get_feedback` (GET /api/feedback): filtered find, then
`.skip(skip).limit(limit)`. -/
def get_feedback (status : Option FeedbackStatus)
    (category : Option FeedbackCategory) (priority : Option Priority)
    (feedback_type : Option FeedbackType) (limit skip : Nat) (s : Store) :
    List Feedback :=
  (((mongoFindF s.feedback
      (buildFeedbackFilter status category priority feedback_type)).drop
        skip).take limit)

/-- Handler `get_suggestions` (GET /api/suggestions). -/
def get_suggestions (status : Option FeedbackStatus)
    (category : Option FeedbackCategory) (priority : Option Priority)
    (limit skip : Nat) (s : Store) : List Suggestion :=
  (((mongoFindS s.suggestions
      (buildSuggestionFilter status category priority)).drop skip).take limit)

/-- Handler `get_feedback_by_id` (GET /api/feedback/id): `find_one` on the id
key, 404 when no document matches. -/
def get_feedback_by_id (feedback_id : String) (s : Store) :
    Except ApiError Feedback :=
  match s.feedback.find? (fun f => f.id = feedback_id) with
  | none => .error (.notFound "Feedback not found")
  | some f => .ok f

/-- The `$set` document of `update_feedback`: the explicitly provided fields
of the PATCH body (`exclude_unset=True`) plus `updated_at = utcnow()`. -/
def applyFeedbackUpdate (u : FeedbackUpdate) (now : Nat) (f : Feedback) :
    Feedback :=
  { f with
    status := u.status.getD f.status
    priority := u.priority.getD f.priority
    admin_notes := match u.admin_notes with
      | some v => some v
      | none => f.admin_notes
    admin_response := match u.admin_response with
      | some v => some v
      | none => f.admin_response
    updated_at := now }

/-- The `$set` document of `update_suggestion`: same four admin fields. -/
def applySuggestionUpdate (u : FeedbackUpdate) (now : Nat) (x : Suggestion) :
    Suggestion :=
  { x with
    status := u.status.getD x.status
    priority := u.priority.getD x.priority
    admin_notes := match u.admin_notes with
      | some v => some v
      | none => x.admin_notes
    admin_response := match u.admin_response with
      | some v => some v
      | none => x.admin_response
    updated_at := now }

/-- Handler `update_feedback` (PATCH /api/feedback/id): existence check
(404 before any write), `update_one` with the `$set` dict, then re-read and
return the stored post-update document.  The re-read failing is impossible;
it would raise in Python and is modelled as a serverError. -/
def update_feedback (feedback_id : String) (update_data : FeedbackUpdate)
    (now : Nat) (s : Store) : Except ApiError Feedback × Store :=
  match s.feedback.find? (fun f => f.id = feedback_id) with
  | none => (.error (.notFound "Feedback not found"), s)
  | some _ =>
    let newColl := updateOne (fun f => f.id = feedback_id)
      (applyFeedbackUpdate update_data now) s.feedback
    let s' : Store := { s with feedback := newColl }
    match newColl.find? (fun f => f.id = feedback_id) with
    | none => (.error (.serverError "updated document vanished"), s')
    | some f => (.ok f, s')

/-- Handler `update_suggestion` (PATCH /api/suggestions/id). -/
def update_suggestion (suggestion_id : String) (update_data : FeedbackUpdate)
    (now : Nat) (s : Store) : Except ApiError Suggestion × Store :=
  match s.suggestions.find? (fun x => x.id = suggestion_id) with
  | none => (.error (.notFound "Suggestion not found"), s)
  | some _ =>
    let newColl := updateOne (fun x => x.id = suggestion_id)
      (applySuggestionUpdate update_data now) s.suggestions
    let s' : Store := { s with suggestions := newColl }
    match newColl.find? (fun x => x.id = suggestion_id) with
    | none => (.error (.serverError "updated document vanished"), s')
    | some x => (.ok x, s')

/-- Handler `vote_suggestion` (POST /api/suggestions/id/vote): existence
check (404 otherwise), then atomic `$inc votes 1` and an acknowledgment
message, not the updated entity. -/
def vote_suggestion (suggestion_id : String) (s : Store) :
    Except ApiError String × Store :=
  match s.suggestions.find? (fun x => x.id = suggestion_id) with
  | none => (.error (.notFound "Suggestion not found"), s)
  | some _ =>
    let newColl := updateOne (fun x => x.id = suggestion_id)
      (fun x => { x with votes := x.votes + 1 }) s.suggestions
    (.ok "Vote recorded successfully", { s with suggestions := newColl })

/-- Iterated sequential voting: `voteN sid n s` issues `n` successive vote
requests for `sid`, each one seeing the store the previous one left. -/
def voteN (suggestion_id : String) : Nat → Store → Store
  | 0, s => s
  | n + 1, s => voteN suggestion_id n (vote_suggestion suggestion_id s).2

/-- A raw JSON body POSTed to /api/feedback, before pydantic validation:
every key optional, enum-valued keys as raw strings.  The keys after
`user_name` are server-managed; FeedbackCreate does not declare them, so
pydantic ignores them silently. -/
structure RawFeedbackPayload where
  title : Option String := none
  description : Option String := none
  category : Option String := none
  type : Option String := none
  rating : Option Int := none
  is_anonymous : Option Bool := none
  user_email : Option String := none
  user_name : Option String := none
  id : Option String := none
  status : Option String := none
  priority : Option String := none
  created_at : Option Nat := none
  updated_at : Option Nat := none
  admin_notes : Option String := none
  admin_response : Option String := none
  votes : Option Int := none
deriving DecidableEq, Repr

/-- A raw JSON body POSTed to /api/suggestions, before validation. -/
structure RawSuggestionPayload where
  title : Option String := none
  description : Option String := none
  category : Option String := none
  rating : Option Int := none
  is_anonymous : Option Bool := none
  user_email : Option String := none
  user_name : Option String := none
  expected_benefit : Option String := none
  id : Option String := none
  status : Option String := none
  priority : Option String := none
  created_at : Option Nat := none
  updated_at : Option Nat := none
  admin_notes : Option String := none
  admin_response : Option String := none
  votes : Option Int := none
deriving DecidableEq, Repr

/-- Pydantic validation of the `rating` field: optional, and when present it
must satisfy `ge=1, le=5`. -/
def parseRating (r : Option Int) : Except String (Option Int) :=
  match r with
  | none => .ok none
  | some v => if 1 ≤ v ∧ v ≤ 5 then .ok (some v) else .error "rating out of range"

/-- Pydantic validation of a FeedbackCreate body: required fields present,
enum members legal, rating in range; only the declared submission fields are
read, everything else is ignored. -/
def parseFeedbackCreate (p : RawFeedbackPayload) :
    Except String FeedbackCreate :=
  match p.title with
  | none => .error "field required: title"
  | some title =>
  match p.description with
  | none => .error "field required: description"
  | some description =>
  match p.category with
  | none => .error "field required: category"
  | some rawCat =>
  match FeedbackCategory.ofString rawCat with
  | none => .error "invalid enum member: category"
  | some category =>
  match p.type with
  | none => .error "field required: type"
  | some rawType =>
  match FeedbackType.ofString rawType with
  | none => .error "invalid enum member: type"
  | some ty =>
  match parseRating p.rating with
  | .error e => .error e
  | .ok rating =>
    .ok { title := title
          description := description
          category := category
          type := ty
          rating := rating
          is_anonymous := p.is_anonymous.getD false
          user_email := p.user_email
          user_name := p.user_name }

/-- Pydantic validation of a SuggestionCreate body. -/
def parseSuggestionCreate (p : RawSuggestionPayload) :
    Except String SuggestionCreate :=
  match p.title with
  | none => .error "field required: title"
  | some title =>
  match p.description with
  | none => .error "field required: description"
  | some description =>
  match p.category with
  | none => .error "field required: category"
  | some rawCat =>
  match FeedbackCategory.ofString rawCat with
  | none => .error "invalid enum member: category"
  | some category =>
  match parseRating p.rating with
  | .error e => .error e
  | .ok rating =>
    .ok { title := title
          description := description
          category := category
          rating := rating
          is_anonymous := p.is_anonymous.getD false
          user_email := p.user_email
          user_name := p.user_name
          expected_benefit := p.expected_benefit }

/-- The full POST /api/feedback route: validation (422 writes nothing) then
the handler. -/
def create_feedback_route (raw : RawFeedbackPayload) (freshId : String)
    (now : Nat) (s : Store) : Except ApiError Feedback × Store :=
  match parseFeedbackCreate raw with
  | .error e => (.error (.validationError e), s)
  | .ok fb =>
    let r := create_feedback fb freshId now s
    (.ok r.1, r.2)

/-- The full POST /api/suggestions route. -/
def create_suggestion_route (raw : RawSuggestionPayload) (freshId : String)
    (now : Nat) (s : Store) : Except ApiError Suggestion × Store :=
  match parseSuggestionCreate raw with
  | .error e => (.error (.validationError e), s)
  | .ok sg =>
    let r := create_suggestion sg freshId now s
    (.ok r.1, r.2)

/-- One iteration of the loop in `get_category_stats`: two counts, two
category-filtered finds (the `rating $exists` clause holds of every stored
document since insertion always writes the rating key), the Python truthiness
filter `if f.get("rating")`, and average = sum/len or None when empty. -/
def statsForCategory (s : Store) (category : FeedbackCategory) :
    CategoryStats :=
  let feedback_count := mongoCountF s.feedback [.byCategory category]
  let suggestion_count := mongoCountS s.suggestions [.byCategory category]
  let feedback_ratings := mongoFindF s.feedback [.byCategory category]
  let suggestion_ratings := mongoFindS s.suggestions [.byCategory category]
  let all_ratings : List Int :=
    ((feedback_ratings.filterMap (fun f => f.rating)).filter
      (fun r => r ≠ 0)) ++
    ((suggestion_ratings.filterMap (fun x => x.rating)).filter
      (fun r => r ≠ 0))
  let avg_rating : Option Rat :=
    if all_ratings.length ≠ 0 then
      some ((all_ratings.sum : Rat) / (all_ratings.length : Rat))
    else none
  { category := category
    feedback_count := feedback_count
    suggestion_count := suggestion_count
    average_rating := avg_rating }

/-- Handler `get_category_stats` (GET /api/categories/stats): one entry per
category, iterating the enum in declaration order. -/
def get_category_stats (s : Store) : List CategoryStats :=
  FeedbackCategory.all.map (statsForCategory s)

/-- The admin dashboard response shape. -/
structure AdminDashboard where
  total_feedback : Nat
  total_suggestions : Nat
  pending_feedback : Nat
  pending_suggestions : Nat
  high_priority_items : Nat
  recent_feedback : List Feedback
  recent_suggestions : List Suggestion
deriving DecidableEq, Repr

/-- Mongo `sort("created_at", -1)` comparison for feedback documents. -/
def byCreatedDescF (a b : Feedback) : Bool :=
  b.created_at ≤ a.created_at

/-- Mongo `sort("created_at", -1)` comparison for suggestion documents. -/
def byCreatedDescS (a b : Suggestion) : Bool :=
  b.created_at ≤ a.created_at

/-- Handler `get_admin_dashboard` (GET /api/admin/dashboard): five counts
plus the two `sort("created_at", -1).limit(5)` reads. -/
def get_admin_dashboard (s : Store) : AdminDashboard :=
  { total_feedback := mongoCountF s.feedback []
    total_suggestions := mongoCountS s.suggestions []
    pending_feedback := mongoCountF s.feedback [.byStatus .pending]
    pending_suggestions := mongoCountS s.suggestions [.byStatus .pending]
    high_priority_items := mongoCountF s.feedback [.byPriority .high] +
      mongoCountS s.suggestions [.byPriority .high]
    recent_feedback := (s.feedback.mergeSort byCreatedDescF).take 5
    recent_suggestions := (s.suggestions.mergeSort byCreatedDescS).take 5 }

/-- Spec-side conjunctive filter for feedback listing: each provided filter
narrows the result, an absent filter imposes no constraint. -/
def specMatchF (status : Option FeedbackStatus)
    (category : Option FeedbackCategory) (priority : Option Priority)
    (feedback_type : Option FeedbackType) (f : Feedback) : Bool :=
  (match status with | some v => f.status = v | none => true) &&
  (match category with | some v => f.category = v | none => true) &&
  (match priority with | some v => f.priority = v | none => true) &&
  (match feedback_type with | some v => f.type = v | none => true)

/-- Spec-side conjunctive filter for suggestion listing. -/
def specMatchS (status : Option FeedbackStatus)
    (category : Option FeedbackCategory) (priority : Option Priority)
    (x : Suggestion) : Bool :=
  (match status with | some v => x.status = v | none => true) &&
  (match category with | some v => x.category = v | none => true) &&
  (match priority with | some v => x.priority = v | none => true)

/-- Spec-side list of the present rating values of a category, not filtered
by Python truthiness: the claim's "every present rating". -/
def specRatings (s : Store) (c : FeedbackCategory) : List Int :=
  ((s.feedback.filter (fun f => f.category = c)).filterMap
    (fun f => f.rating)) ++
  ((s.suggestions.filter (fun x => x.category = c)).filterMap
    (fun x => x.rating))

/-- Validation invariant of the data model: every stored rating, when
present, lies in the interval 1..5 (creation enforces it and no update path
touches ratings). -/
def ratingsValid (s : Store) : Prop :=
  (∀ f ∈ s.feedback, ∀ r : Int, f.rating = some r → 1 ≤ r ∧ r ≤ 5) ∧
  (∀ x ∈ s.suggestions, ∀ r : Int, x.rating = some r → 1 ≤ r ∧ r ≤ 5)

/-- A concrete valid feedback creation body, for concrete evaluations. -/
def sampleFeedbackCreate : FeedbackCreate :=
  { title := "X"
    description := "Y"
    category := .performance
    type := .bug_report
    rating := some 2 }

/-- A concrete valid suggestion creation body. -/
def sampleSuggestionCreate : SuggestionCreate :=
  { title := "S"
    description := "D"
    category := .content
    rating := some 4 }

/-- A concrete stored feedback document. -/
def sampleFeedback : Feedback :=
  { id := "f1"
    title := "X"
    description := "Y"
    category := .performance
    type := .bug_report
    rating := some 2
    is_anonymous := false
    user_email := none
    user_name := none
    status := .pending
    priority := .medium
    created_at := 10
    updated_at := 10
    admin_notes := none
    admin_response := none }

/-- A concrete stored suggestion document. -/
def sampleSuggestion : Suggestion :=
  { id := "s1"
    title := "S"
    description := "D"
    category := .content
    rating := some 4
    is_anonymous := false
    user_email := none
    user_name := none
    expected_benefit := none
    status := .pending
    priority := .medium
    created_at := 20
    updated_at := 20
    admin_notes := none
    admin_response := none
    votes := 0 }

/-- A concrete store holding one feedback item and one suggestion. -/
def sampleStore : Store :=
  { feedback := [sampleFeedback]
    suggestions := [sampleSuggestion] }

/-- A concrete valid raw feedback body. -/
def sampleRawFeedback : RawFeedbackPayload :=
  { title := some "X"
    description := some "Y"
    category := some "performance"
    type := some "bug_report"
    rating := some 2 }

/-- A concrete valid raw suggestion body. -/
def sampleRawSuggestion : RawSuggestionPayload :=
  { title := some "S"
    description := some "D"
    category := some "content"
    rating := some 4 }

section Lemmas

/-- Mongo update_one commutes with find_one on the same filter, provided the
modification preserves matching: the first match is modified in place. -/
theorem find?_updateOne {α : Type} (p : α → Bool) (f : α → α) (l : List α)
    (hpf : ∀ x, p x = true → p (f x) = true) :
    (updateOne p f l).find? p = (l.find? p).map f := by
  induction l with
  | nil => simp [updateOne]
  | cons a l ih =>
    by_cases ha : p a = true
    · rw [updateOne, if_pos ha, List.find?_cons_of_pos _ (hpf a ha),
        List.find?_cons_of_pos _ ha]
      rfl
    · have ha' : ¬ p a = true := ha
      rw [updateOne, if_neg ha', List.find?_cons_of_neg _ ha',
        List.find?_cons_of_neg _ ha', ih]

/-- A successful `find_one` splits the collection at the first match, and
`update_one` rewrites exactly that document. -/
theorem updateOne_decomp {α : Type} (p : α → Bool) (f : α → α) (l : List α)
    (x : α) (h : l.find? p = some x) :
    ∃ l₁ l₂, (∀ y ∈ l₁, p y = false) ∧ p x = true ∧
      l = l₁ ++ x :: l₂ ∧ updateOne p f l = l₁ ++ f x :: l₂ := by
  induction l with
  | nil => simp at h
  | cons a l ih =>
    by_cases ha : p a = true
    · rw [List.find?_cons_of_pos _ ha] at h
      obtain rfl : a = x := by simpa using h
      exact ⟨[], l, by simp, ha, rfl, by rw [updateOne, if_pos ha]; rfl⟩
    · have ha' : ¬ p a = true := ha
      rw [List.find?_cons_of_neg _ ha'] at h
      obtain ⟨l₁, l₂, h1, h2, h3, h4⟩ := ih h
      refine ⟨a :: l₁, l₂, ?_, h2, by rw [h3]; rfl, ?_⟩
      · intro y hy
        rcases List.mem_cons.mp hy with rfl | hy
        · simpa using ha'
        · exact h1 y hy
      · rw [updateOne, if_neg ha', h4]
        rfl

/-- One successful vote: ack message, feedback collection untouched, and the
matched suggestion re-read with votes bumped by one. -/
theorem vote_suggestion_step (sid : String) (s : Store) (x : Suggestion)
    (h : s.suggestions.find? (fun y => y.id = sid) = some x) :
    (vote_suggestion sid s).1 = .ok "Vote recorded successfully" ∧
    (vote_suggestion sid s).2.feedback = s.feedback ∧
    (vote_suggestion sid s).2.suggestions.find? (fun y => y.id = sid) =
      some { x with votes := x.votes + 1 } := by
  have hpf : ∀ y : Suggestion, (decide (y.id = sid)) = true →
      (decide (({ y with votes := y.votes + 1 } : Suggestion).id = sid)) =
        true := by
    intro y hy
    simpa using hy
  refine ⟨?_, ?_, ?_⟩
  · simp [vote_suggestion, h]
  · simp [vote_suggestion, h]
  · simp only [vote_suggestion, h]
    rw [find?_updateOne _ _ _ hpf, h]
    rfl

/-- Iterated sequential voting bumps the matched suggestion's votes by the
number of requests and touches no other field of it. -/
theorem voteN_votes (sid : String) (n : Nat) :
    ∀ (s : Store) (x : Suggestion),
      s.suggestions.find? (fun y => y.id = sid) = some x →
      ∃ xn, (voteN sid n s).suggestions.find? (fun y => y.id = sid) = some xn ∧
        xn.votes = x.votes + n ∧ xn.updated_at = x.updated_at := by
  induction n with
  | zero =>
    intro s x h
    exact ⟨x, by simpa [voteN] using h, rfl, rfl⟩
  | succ n ih =>
    intro s x h
    have hstep := (vote_suggestion_step sid s x h).2.2
    obtain ⟨xn, h1, h2, h3⟩ := ih _ _ hstep
    refine ⟨xn, by simpa [voteN] using h1, ?_, by simpa using h3⟩
    rw [h2]
    simp
    omega

end Lemmas

/-- Claim C1: for every valid feedback or suggestion creation payload, the
entity returned by the create operation has status pending, priority medium,
a non-empty freshly generated identifier, created_at equal to updated_at,
and (for suggestions) votes = 0. -/
theorem claim_C1_creation_defaults (fb : FeedbackCreate)
    (sg : SuggestionCreate) (idF idS : String) (nowF nowS : Nat)
    (sF sS : Store) (hidF : idF ≠ "") (hidS : idS ≠ "") :
    ((create_feedback fb idF nowF sF).1.status = .pending ∧
     (create_feedback fb idF nowF sF).1.priority = .medium ∧
     (create_feedback fb idF nowF sF).1.id = idF ∧
     (create_feedback fb idF nowF sF).1.id ≠ "" ∧
     (create_feedback fb idF nowF sF).1.created_at =
       (create_feedback fb idF nowF sF).1.updated_at) ∧
    ((create_suggestion sg idS nowS sS).1.status = .pending ∧
     (create_suggestion sg idS nowS sS).1.priority = .medium ∧
     (create_suggestion sg idS nowS sS).1.id = idS ∧
     (create_suggestion sg idS nowS sS).1.id ≠ "" ∧
     (create_suggestion sg idS nowS sS).1.created_at =
       (create_suggestion sg idS nowS sS).1.updated_at ∧
     (create_suggestion sg idS nowS sS).1.votes = 0) :=
  ⟨⟨rfl, rfl, rfl, hidF, rfl⟩, ⟨rfl, rfl, rfl, hidS, rfl, rfl⟩⟩

/-- Witness for claim C1 at a concrete payload, id and instant. -/
theorem claim_C1_creation_defaults_witness :
    (create_feedback sampleFeedbackCreate "fid" 5 sampleStore).1.status =
      .pending ∧
    (create_feedback sampleFeedbackCreate "fid" 5 sampleStore).1.id ≠ "" ∧
    (create_suggestion sampleSuggestionCreate "sid" 6 sampleStore).1.votes =
      0 := by
  have h := claim_C1_creation_defaults sampleFeedbackCreate
    sampleSuggestionCreate "fid" "sid" 5 6 sampleStore sampleStore
    (by decide) (by decide)
  exact ⟨h.1.1, h.1.2.2.2.1, h.2.2.2.2.2.2⟩

/-- Claim C2: voting on an existing suggestion returns an acknowledgment (not
the entity), increments that suggestion's votes by exactly 1, leaves its
updated_at unchanged; a non-existent identifier yields NotFound; N sequential
successful votes increase votes by exactly N. -/
theorem claim_C2_vote (sid : String) (s : Store) (n : Nat) (x : Suggestion)
    (h : s.suggestions.find? (fun y => y.id = sid) = some x) :
    (vote_suggestion sid s).1 = .ok "Vote recorded successfully" ∧
    (∃ x', (vote_suggestion sid s).2.suggestions.find?
        (fun y => y.id = sid) = some x' ∧
      x'.votes = x.votes + 1 ∧ x'.updated_at = x.updated_at) ∧
    (∃ xn, (voteN sid n s).suggestions.find? (fun y => y.id = sid) =
        some xn ∧ xn.votes = x.votes + n) ∧
    (∀ t : Store, t.suggestions.find? (fun y => y.id = sid) = none →
      vote_suggestion sid t = (.error (.notFound "Suggestion not found"), t)) := by
  obtain ⟨hack, hfb, hfind⟩ := vote_suggestion_step sid s x h
  refine ⟨hack, ⟨_, hfind, by simp, by simp⟩, ?_, ?_⟩
  · obtain ⟨xn, h1, h2, h3⟩ := voteN_votes sid n s x h
    exact ⟨xn, h1, h2⟩
  · intro t ht
    simp only [vote_suggestion, ht]

/-- Witness for claim C2: three sequential votes at a concrete store. -/
theorem claim_C2_vote_witness :
    (vote_suggestion "s1" sampleStore).1 = .ok "Vote recorded successfully" ∧
    (∃ xn, (voteN "s1" 3 sampleStore).suggestions.find?
        (fun y => y.id = "s1") = some xn ∧
      xn.votes = sampleSuggestion.votes + 3) := by
  have h := claim_C2_vote "s1" sampleStore 3 sampleSuggestion (by decide)
  exact ⟨h.1, h.2.2.1⟩

/-- Claim C3: partial update applies exactly the provided fields, leaves every
unset field and every submission field at its prior value, unconditionally
refreshes updated_at, returns the stored post-update state, and signals
NotFound before any mutation for an unknown identifier. -/
theorem claim_C3_partial_update (fid sid : String) (u v : FeedbackUpdate)
    (nowF nowS : Nat) (sF sS : Store) (f : Feedback) (x : Suggestion)
    (hf : sF.feedback.find? (fun y => y.id = fid) = some f)
    (hx : sS.suggestions.find? (fun y => y.id = sid) = some x) :
    (∃ f', (update_feedback fid u nowF sF).1 = .ok f' ∧
      (update_feedback fid u nowF sF).2.feedback.find?
        (fun y => y.id = fid) = some f' ∧
      (update_feedback fid u nowF sF).2.suggestions = sF.suggestions ∧
      f'.status = u.status.getD f.status ∧
      f'.priority = u.priority.getD f.priority ∧
      f'.admin_notes = (match u.admin_notes with
        | some w => some w
        | none => f.admin_notes) ∧
      f'.admin_response = (match u.admin_response with
        | some w => some w
        | none => f.admin_response) ∧
      f'.updated_at = nowF ∧
      f'.id = f.id ∧ f'.title = f.title ∧ f'.description = f.description ∧
      f'.category = f.category ∧ f'.type = f.type ∧ f'.rating = f.rating ∧
      f'.is_anonymous = f.is_anonymous ∧ f'.user_email = f.user_email ∧
      f'.user_name = f.user_name ∧ f'.created_at = f.created_at) ∧
    (∃ x', (update_suggestion sid v nowS sS).1 = .ok x' ∧
      (update_suggestion sid v nowS sS).2.suggestions.find?
        (fun y => y.id = sid) = some x' ∧
      (update_suggestion sid v nowS sS).2.feedback = sS.feedback ∧
      x'.status = v.status.getD x.status ∧
      x'.priority = v.priority.getD x.priority ∧
      x'.admin_notes = (match v.admin_notes with
        | some w => some w
        | none => x.admin_notes) ∧
      x'.admin_response = (match v.admin_response with
        | some w => some w
        | none => x.admin_response) ∧
      x'.updated_at = nowS ∧
      x'.id = x.id ∧ x'.title = x.title ∧ x'.description = x.description ∧
      x'.category = x.category ∧ x'.rating = x.rating ∧
      x'.is_anonymous = x.is_anonymous ∧ x'.user_email = x.user_email ∧
      x'.user_name = x.user_name ∧ x'.expected_benefit = x.expected_benefit ∧
      x'.votes = x.votes ∧ x'.created_at = x.created_at) ∧
    (∀ t : Store, t.feedback.find? (fun y => y.id = fid) = none →
      update_feedback fid u nowF t =
        (.error (.notFound "Feedback not found"), t)) ∧
    (∀ t : Store, t.suggestions.find? (fun y => y.id = sid) = none →
      update_suggestion sid v nowS t =
        (.error (.notFound "Suggestion not found"), t)) := by
  have hfindF : (updateOne (fun y => y.id = fid) (applyFeedbackUpdate u nowF)
      sF.feedback).find? (fun y => y.id = fid) =
        some (applyFeedbackUpdate u nowF f) := by
    rw [find?_updateOne _ _ _ ?_, hf]
    · rfl
    · intro y hy
      simpa [applyFeedbackUpdate] using hy
  have hfindS : (updateOne (fun y => y.id = sid)
      (applySuggestionUpdate v nowS) sS.suggestions).find?
        (fun y => y.id = sid) = some (applySuggestionUpdate v nowS x) := by
    rw [find?_updateOne _ _ _ ?_, hx]
    · rfl
    · intro y hy
      simpa [applySuggestionUpdate] using hy
  refine ⟨⟨applyFeedbackUpdate u nowF f, ?_⟩,
    ⟨applySuggestionUpdate v nowS x, ?_⟩, ?_, ?_⟩
  · simp [update_feedback, hf, hfindF, applyFeedbackUpdate]
  · simp [update_suggestion, hx, hfindS, applySuggestionUpdate]
  · intro t ht
    simp only [update_feedback, ht]
  · intro t ht
    simp only [update_suggestion, ht]

/-- Witness for claim C3: update only the status of a stored item. -/
theorem claim_C3_partial_update_witness :
    ∃ f', (update_feedback "f1" { status := some .resolved } 42
        sampleStore).1 = .ok f' ∧
      f'.status = .resolved ∧ f'.admin_notes = sampleFeedback.admin_notes ∧
      f'.updated_at = 42 := by
  have h := claim_C3_partial_update "f1" "s1" { status := some .resolved }
    { priority := some .high } 42 43 sampleStore sampleStore sampleFeedback
    sampleSuggestion (by decide) (by decide)
  obtain ⟨⟨f', h1, _, _, h4, _, h6, _, h8, _⟩, _⟩ := h
  exact ⟨f', h1, by simpa using h4, by simpa using h6, h8⟩

/-- Claim C10: a successful vote changes no stored field of the matched
suggestion other than votes, and leaves every other suggestion and the whole
feedback collection untouched. -/
theorem claim_C10_vote_frame (sid : String) (s : Store) (x : Suggestion)
    (h : s.suggestions.find? (fun y => y.id = sid) = some x) :
    (vote_suggestion sid s).2.feedback = s.feedback ∧
    ∃ l₁ l₂ x',
      (∀ y ∈ l₁, y.id ≠ sid) ∧
      s.suggestions = l₁ ++ x :: l₂ ∧
      (vote_suggestion sid s).2.suggestions = l₁ ++ x' :: l₂ ∧
      x'.votes = x.votes + 1 ∧
      x'.id = x.id ∧ x'.title = x.title ∧ x'.description = x.description ∧
      x'.category = x.category ∧ x'.rating = x.rating ∧
      x'.is_anonymous = x.is_anonymous ∧ x'.user_email = x.user_email ∧
      x'.user_name = x.user_name ∧ x'.expected_benefit = x.expected_benefit ∧
      x'.status = x.status ∧ x'.priority = x.priority ∧
      x'.created_at = x.created_at ∧ x'.updated_at = x.updated_at ∧
      x'.admin_notes = x.admin_notes ∧
      x'.admin_response = x.admin_response := by
  obtain ⟨l₁, l₂, h1, h2, h3, h4⟩ := updateOne_decomp
    (fun y => y.id = sid) (fun y => { y with votes := y.votes + 1 })
    s.suggestions x h
  refine ⟨by simp [vote_suggestion, h], l₁, l₂,
    { x with votes := x.votes + 1 }, ?_, h3, ?_, by simp, rfl, rfl, rfl,
    rfl, rfl, rfl, rfl, rfl, rfl, rfl, rfl, rfl, rfl, rfl, rfl⟩
  · intro y hy
    simpa using h1 y hy
  · simp only [vote_suggestion, h]
    exact h4

/-- Witness for claim C10 at a concrete store. -/
theorem claim_C10_vote_frame_witness :
    (vote_suggestion "s1" sampleStore).2.feedback = sampleStore.feedback ∧
    ∃ l₁ l₂ x', (vote_suggestion "s1" sampleStore).2.suggestions =
        l₁ ++ x' :: l₂ ∧
      x'.votes = sampleSuggestion.votes + 1 ∧
      x'.title = sampleSuggestion.title := by
  obtain ⟨hfb, l₁, l₂, x', _, _, h3, h4, _, h6, _⟩ :=
    claim_C10_vote_frame "s1" sampleStore sampleSuggestion (by decide)
  exact ⟨hfb, l₁, l₂, x', h3, h4, h6⟩

/-- Claim C8: a non-resolving identifier makes lookup, partial update and
vote all signal NotFound (never a validation error); a resolving identifier
makes lookup return the matching item. -/
theorem claim_C8_not_found (fid sid : String) (u v : FeedbackUpdate)
    (nowF nowS : Nat) (s : Store) :
    (s.feedback.find? (fun y => y.id = fid) = none →
      get_feedback_by_id fid s = .error (.notFound "Feedback not found") ∧
      update_feedback fid u nowF s =
        (.error (.notFound "Feedback not found"), s)) ∧
    (s.suggestions.find? (fun y => y.id = sid) = none →
      update_suggestion sid v nowS s =
        (.error (.notFound "Suggestion not found"), s) ∧
      vote_suggestion sid s =
        (.error (.notFound "Suggestion not found"), s)) ∧
    (∀ f, s.feedback.find? (fun y => y.id = fid) = some f →
      get_feedback_by_id fid s = .ok f) := by
  refine ⟨?_, ?_, ?_⟩
  · intro h
    exact ⟨by simp only [get_feedback_by_id, h],
      by simp only [update_feedback, h]⟩
  · intro h
    exact ⟨by simp only [update_suggestion, h],
      by simp only [vote_suggestion, h]⟩
  · intro f h
    simp only [get_feedback_by_id, h]

/-- Witness for claim C8: a missing and a present identifier. -/
theorem claim_C8_not_found_witness :
    get_feedback_by_id "zz" sampleStore =
      .error (.notFound "Feedback not found") ∧
    vote_suggestion "zz" sampleStore =
      (.error (.notFound "Suggestion not found"), sampleStore) ∧
    get_feedback_by_id "f1" sampleStore = .ok sampleFeedback := by
  have h1 := claim_C8_not_found "zz" "zz"
    ({} : FeedbackUpdate) ({} : FeedbackUpdate) 0 0 sampleStore
  have h2 := claim_C8_not_found "f1" "s1"
    ({} : FeedbackUpdate) ({} : FeedbackUpdate) 0 0 sampleStore
  exact ⟨(h1.1 (by decide)).1, (h1.2.1 (by decide)).2,
    h2.2.2 sampleFeedback (by decide)⟩

/-- Claim C9: the creation input models expose only the submission fields, so
client-supplied values for the server-managed keys are ignored: the created
entity always carries the freshly generated identifier and the lifecycle
defaults, whatever those keys held. -/
theorem claim_C9_server_fields_ignored (p : RawFeedbackPayload)
    (q : RawSuggestionPayload) (idv stv prv anv arv : Option String)
    (cav uav : Option Nat) (vov : Option Int)
    (idw stw prw anw arw : Option String) (caw uaw : Option Nat)
    (vow : Option Int) (idF idS : String) (nowF nowS : Nat) (sF sS : Store) :
    create_feedback_route
      { p with
        id := idv
        status := stv
        priority := prv
        created_at := cav
        updated_at := uav
        admin_notes := anv
        admin_response := arv
        votes := vov } idF nowF sF = create_feedback_route p idF nowF sF ∧
    (∀ r, (create_feedback_route p idF nowF sF).1 = .ok r →
      r.id = idF ∧ r.status = .pending ∧ r.priority = .medium ∧
      r.created_at = nowF ∧ r.updated_at = nowF ∧ r.admin_notes = none ∧
      r.admin_response = none) ∧
    create_suggestion_route
      { q with
        id := idw
        status := stw
        priority := prw
        created_at := caw
        updated_at := uaw
        admin_notes := anw
        admin_response := arw
        votes := vow } idS nowS sS = create_suggestion_route q idS nowS sS ∧
    (∀ r, (create_suggestion_route q idS nowS sS).1 = .ok r →
      r.id = idS ∧ r.status = .pending ∧ r.priority = .medium ∧
      r.votes = 0 ∧ r.created_at = nowS ∧ r.updated_at = nowS ∧
      r.admin_notes = none ∧ r.admin_response = none) := by
  refine ⟨rfl, ?_, rfl, ?_⟩
  · intro r hr
    cases hp : parseFeedbackCreate p with
    | error e => simp [create_feedback_route, hp] at hr
    | ok fb =>
      simp only [create_feedback_route, hp, create_feedback] at hr
      obtain rfl : _ = r := by simpa using hr
      exact ⟨rfl, rfl, rfl, rfl, rfl, rfl, rfl⟩
  · intro r hr
    cases hp : parseSuggestionCreate q with
    | error e => simp [create_suggestion_route, hp] at hr
    | ok sg =>
      simp only [create_suggestion_route, hp, create_suggestion] at hr
      obtain rfl : _ = r := by simpa using hr
      exact ⟨rfl, rfl, rfl, rfl, rfl, rfl, rfl, rfl⟩

/-- Witness for claim C9: concrete junk in the server-managed keys changes
nothing about the outcome. -/
theorem claim_C9_server_fields_ignored_witness :
    create_feedback_route
      { sampleRawFeedback with
        id := some "evil"
        status := some "resolved"
        priority := some "urgent"
        created_at := some 1
        updated_at := some 2
        admin_notes := some "n"
        admin_response := some "r"
        votes := some 9 }
      "fid" 7 sampleStore =
      create_feedback_route sampleRawFeedback "fid" 7 sampleStore ∧
    (∀ r, (create_feedback_route sampleRawFeedback "fid" 7 sampleStore).1 =
        .ok r → r.id = "fid" ∧ r.status = .pending) := by
  have h := claim_C9_server_fields_ignored sampleRawFeedback
    sampleRawSuggestion (some "evil") (some "resolved") (some "urgent")
    (some "n") (some "r") (some 1) (some 2) (some 9)
    none none none none none none none none
    "fid" "sid" 7 8 sampleStore sampleStore
  exact ⟨h.1, fun r hr => ⟨(h.2.1 r hr).1, (h.2.1 r hr).2.1⟩⟩

/-- The incrementally built feedback `filter_dict` means the same thing as the
spec-side conjunction of the provided filters. -/
theorem all_buildFeedbackFilter (st : Option FeedbackStatus)
    (c : Option FeedbackCategory) (pr : Option Priority)
    (ty : Option FeedbackType) (f : Feedback) :
    (buildFeedbackFilter st c pr ty).all (FCond.holdsF f) =
      specMatchF st c pr ty f := by
  cases st <;> cases c <;> cases pr <;> cases ty <;>
    simp [buildFeedbackFilter, specMatchF, FCond.holdsF, Bool.and_assoc]

/-- The incrementally built suggestion `filter_dict` means the same thing as
the spec-side conjunction of the provided filters. -/
theorem all_buildSuggestionFilter (st : Option FeedbackStatus)
    (c : Option FeedbackCategory) (pr : Option Priority) (x : Suggestion) :
    (buildSuggestionFilter st c pr).all (FCond.holdsS x) =
      specMatchS st c pr x := by
  cases st <;> cases c <;> cases pr <;>
    simp [buildSuggestionFilter, specMatchS, FCond.holdsS, Bool.and_assoc]

/-- Claim C7: the listing operations return exactly the items matching the
conjunction of the provided filters (absent filters impose no constraint),
skipping the first `skip` matches and returning at most `limit` items, with
default limit 50 and the empty list as a valid outcome. -/
theorem claim_C7_listing (st : Option FeedbackStatus)
    (c : Option FeedbackCategory) (pr : Option Priority)
    (ty : Option FeedbackType) (limit skip : Nat) (s : Store) :
    get_feedback st c pr ty limit skip s =
      ((s.feedback.filter (specMatchF st c pr ty)).drop skip).take limit ∧
    (get_feedback st c pr ty limit skip s).length ≤ limit ∧
    (∀ f ∈ get_feedback st c pr ty limit skip s,
      specMatchF st c pr ty f = true) ∧
    get_suggestions st c pr limit skip s =
      ((s.suggestions.filter (specMatchS st c pr)).drop skip).take limit ∧
    (get_suggestions st c pr limit skip s).length ≤ limit ∧
    (∀ x ∈ get_suggestions st c pr limit skip s,
      specMatchS st c pr x = true) ∧
    listing_default_limit = 50 ∧
    get_feedback st c pr ty limit skip
      { feedback := [], suggestions := [] } = [] ∧
    get_suggestions st c pr limit skip
      { feedback := [], suggestions := [] } = [] := by
  have hf : mongoFindF s.feedback (buildFeedbackFilter st c pr ty) =
      s.feedback.filter (specMatchF st c pr ty) := by
    unfold mongoFindF
    exact List.filter_congr (fun f _ => all_buildFeedbackFilter st c pr ty f)
  have hs : mongoFindS s.suggestions (buildSuggestionFilter st c pr) =
      s.suggestions.filter (specMatchS st c pr) := by
    unfold mongoFindS
    exact List.filter_congr (fun x _ => all_buildSuggestionFilter st c pr x)
  have h1 : get_feedback st c pr ty limit skip s =
      ((s.feedback.filter (specMatchF st c pr ty)).drop skip).take limit := by
    unfold get_feedback
    rw [hf]
  have h4 : get_suggestions st c pr limit skip s =
      ((s.suggestions.filter (specMatchS st c pr)).drop skip).take limit := by
    unfold get_suggestions
    rw [hs]
  refine ⟨h1, ?_, ?_, h4, ?_, ?_, rfl, ?_, ?_⟩
  · rw [h1]
    exact List.length_take_le limit _
  · intro f hfm
    rw [h1] at hfm
    have := List.mem_of_mem_drop (List.mem_of_mem_take hfm)
    exact (List.mem_filter.mp this).2
  · rw [h4]
    exact List.length_take_le limit _
  · intro x hxm
    rw [h4] at hxm
    have := List.mem_of_mem_drop (List.mem_of_mem_take hxm)
    exact (List.mem_filter.mp this).2
  · simp [get_feedback, mongoFindF]
  · simp [get_suggestions, mongoFindS]

/-- Under the validation invariant all stored ratings lie in 1..5, so the
Python truthiness filter `if f.get("rating")` removes nothing from the list
of present ratings. -/
theorem filter_truthy_of_valid {α : Type} (rat : α → Option Int)
    (l : List α)
    (hv : ∀ a ∈ l, ∀ r : Int, rat a = some r → 1 ≤ r ∧ r ≤ 5) :
    (l.filterMap rat).filter (fun r => r ≠ 0) = l.filterMap rat := by
  apply List.filter_eq_self.mpr
  intro r hr
  obtain ⟨a, ha, hra⟩ := List.mem_filterMap.mp hr
  have := hv a ha r hra
  simp only [ne_eq, decide_eq_true_eq]
  omega

/-- One loop iteration of `get_category_stats` computes, for its category,
the two collection counts and the mean of the present ratings (absent when
there are none), provided the store satisfies the validation invariant. -/
theorem statsForCategory_spec (s : Store) (hv : ratingsValid s)
    (c : FeedbackCategory) :
    (statsForCategory s c).category = c ∧
    (statsForCategory s c).feedback_count =
      (s.feedback.filter (fun f => f.category = c)).length ∧
    (statsForCategory s c).suggestion_count =
      (s.suggestions.filter (fun x => x.category = c)).length ∧
    (statsForCategory s c).average_rating =
      (if (specRatings s c).length ≠ 0 then
        some (((specRatings s c).sum : Rat) / ((specRatings s c).length : Rat))
      else none) := by
  have hF : mongoFindF s.feedback [.byCategory c] =
      s.feedback.filter (fun f => f.category = c) := by
    unfold mongoFindF
    exact List.filter_congr (fun f _ => by simp [FCond.holdsF])
  have hS : mongoFindS s.suggestions [.byCategory c] =
      s.suggestions.filter (fun x => x.category = c) := by
    unfold mongoFindS
    exact List.filter_congr (fun x _ => by simp [FCond.holdsS])
  have htF := filter_truthy_of_valid (fun f => f.rating)
    (s.feedback.filter (fun f => f.category = c))
    (fun f hfm => hv.1 f (List.mem_of_mem_filter hfm))
  have htS := filter_truthy_of_valid (fun x => x.rating)
    (s.suggestions.filter (fun x => x.category = c))
    (fun x hxm => hv.2 x (List.mem_of_mem_filter hxm))
  simp only [statsForCategory, mongoCountF, mongoCountS, hF, hS, htF, htS]
  simp [specRatings]

/-- Claim C4: category statistics always has exactly 8 entries, one per fixed
category in declaration order; each entry carries the two per-category counts
and the arithmetic mean of all present ratings across matching feedback and
suggestions, absent (not zero) when no ratings exist. -/
theorem claim_C4_category_stats (s : Store) (hv : ratingsValid s) :
    (get_category_stats s).length = 8 ∧
    (get_category_stats s).map (fun st => st.category) =
      FeedbackCategory.all ∧
    ∀ st ∈ get_category_stats s,
      st.feedback_count =
        (s.feedback.filter (fun f => f.category = st.category)).length ∧
      st.suggestion_count =
        (s.suggestions.filter (fun x => x.category = st.category)).length ∧
      st.average_rating =
        (if (specRatings s st.category).length ≠ 0 then
          some (((specRatings s st.category).sum : Rat) /
            ((specRatings s st.category).length : Rat))
        else none) := by
  refine ⟨by simp [get_category_stats, FeedbackCategory.all], ?_, ?_⟩
  · simp only [get_category_stats, List.map_map]
    rfl
  · intro st hst
    rw [get_category_stats] at hst
    obtain ⟨c, _, rfl⟩ := List.mem_map.mp hst
    obtain ⟨h1, h2, h3, h4⟩ := statsForCategory_spec s hv c
    rw [h1]
    exact ⟨h2, h3, h4⟩

/-- Witness for claim C4 at a concrete store satisfying the invariant. -/
theorem claim_C4_category_stats_witness :
    ratingsValid sampleStore ∧
    (get_category_stats sampleStore).length = 8 := by
  have hv : ratingsValid sampleStore := by
    constructor
    · intro f hf r hr
      have hf' : f = sampleFeedback := by simpa [sampleStore] using hf
      subst hf'
      have : (2 : Int) = r := by simpa [sampleFeedback] using hr
      omega
    · intro x hx r hr
      have hx' : x = sampleSuggestion := by simpa [sampleStore] using hx
      subst hx'
      have : (4 : Int) = r := by simpa [sampleSuggestion] using hr
      omega
  exact ⟨hv, (claim_C4_category_stats sampleStore hv).1⟩

/-- A descending-by-key merge sort followed by `take n` yields a descending
run of length `min n l.length` holding only maximal elements: the remainder
is a permutation complement and every element of it has a key no larger than
every kept element. -/
theorem take_mergeSort_desc {α : Type} (key : α → Nat) (n : Nat)
    (l : List α) :
    (((l.mergeSort (fun a b => key b ≤ key a)).take n).length =
      min n l.length) ∧
    List.Pairwise (fun a b => key b ≤ key a)
      ((l.mergeSort (fun a b => key b ≤ key a)).take n) ∧
    l.Perm ((l.mergeSort (fun a b => key b ≤ key a)).take n ++
      (l.mergeSort (fun a b => key b ≤ key a)).drop n) ∧
    ∀ a ∈ (l.mergeSort (fun a b => key b ≤ key a)).drop n,
      ∀ b ∈ (l.mergeSort (fun a b => key b ≤ key a)).take n,
        key a ≤ key b := by
  set le : α → α → Bool := fun a b => key b ≤ key a with hle
  have htrans : ∀ a b c, le a b = true → le b c = true → le a c = true := by
    intro a b c h1 h2
    simp only [hle, decide_eq_true_eq] at h1 h2 ⊢
    omega
  have htot : ∀ a b, (le a b || le b a) = true := by
    intro a b
    simp only [hle, Bool.or_eq_true, decide_eq_true_eq]
    omega
  have hsorted := List.sorted_mergeSort htrans htot l
  have hsplit := List.take_append_drop n (l.mergeSort le)
  refine ⟨?_, ?_, ?_, ?_⟩
  · rw [List.length_take, List.length_mergeSort]
  · have := hsorted.sublist (List.take_sublist n (l.mergeSort le))
    exact this.imp (fun h => by simpa [hle] using h)
  · have hperm := (List.mergeSort_perm l le).symm
    rw [← hsplit] at hperm
    exact hperm
  · rw [← hsplit] at hsorted
    have := (List.pairwise_append.mp hsorted).2.2
    intro a ha b hb
    have h := this b hb a ha
    simpa [hle] using h

/-- Claim C5: the admin dashboard reports the collection sizes, the pending
counts, high_priority_items as high-priority feedback plus high-priority
suggestions, and the 5 most-recently-created feedback items and suggestions
ordered by created_at descending. -/
theorem claim_C5_admin_dashboard (s : Store) :
    (get_admin_dashboard s).total_feedback = s.feedback.length ∧
    (get_admin_dashboard s).total_suggestions = s.suggestions.length ∧
    (get_admin_dashboard s).pending_feedback =
      (s.feedback.filter (fun f => f.status = .pending)).length ∧
    (get_admin_dashboard s).pending_suggestions =
      (s.suggestions.filter (fun x => x.status = .pending)).length ∧
    (get_admin_dashboard s).high_priority_items =
      (s.feedback.filter (fun f => f.priority = .high)).length +
      (s.suggestions.filter (fun x => x.priority = .high)).length ∧
    (get_admin_dashboard s).recent_feedback.length =
      min 5 s.feedback.length ∧
    List.Pairwise (fun a b => b.created_at ≤ a.created_at)
      (get_admin_dashboard s).recent_feedback ∧
    (∃ older, s.feedback.Perm
        ((get_admin_dashboard s).recent_feedback ++ older) ∧
      ∀ a ∈ older, ∀ b ∈ (get_admin_dashboard s).recent_feedback,
        a.created_at ≤ b.created_at) ∧
    (get_admin_dashboard s).recent_suggestions.length =
      min 5 s.suggestions.length ∧
    List.Pairwise (fun a b => b.created_at ≤ a.created_at)
      (get_admin_dashboard s).recent_suggestions ∧
    (∃ older, s.suggestions.Perm
        ((get_admin_dashboard s).recent_suggestions ++ older) ∧
      ∀ a ∈ older, ∀ b ∈ (get_admin_dashboard s).recent_suggestions,
        a.created_at ≤ b.created_at) := by
  obtain ⟨hlF, hpF, hqF, hbF⟩ :=
    take_mergeSort_desc (fun f : Feedback => f.created_at) 5 s.feedback
  obtain ⟨hlS, hpS, hqS, hbS⟩ :=
    take_mergeSort_desc (fun x : Suggestion => x.created_at) 5 s.suggestions
  have hrF : (get_admin_dashboard s).recent_feedback =
      (s.feedback.mergeSort byCreatedDescF).take 5 := rfl
  have hrS : (get_admin_dashboard s).recent_suggestions =
      (s.suggestions.mergeSort byCreatedDescS).take 5 := rfl
  have heqF : byCreatedDescF =
      fun a b : Feedback => decide (b.created_at ≤ a.created_at) := rfl
  have heqS : byCreatedDescS =
      fun a b : Suggestion => decide (b.created_at ≤ a.created_at) := rfl
  refine ⟨?_, ?_, ?_, ?_, ?_, ?_, ?_, ?_, ?_, ?_, ?_⟩
  · simp [get_admin_dashboard, mongoCountF, mongoFindF]
  · simp [get_admin_dashboard, mongoCountS, mongoFindS]
  · simp [get_admin_dashboard, mongoCountF, mongoFindF, FCond.holdsF]
  · simp [get_admin_dashboard, mongoCountS, mongoFindS, FCond.holdsS]
  · simp [get_admin_dashboard, mongoCountF, mongoFindF, mongoCountS,
      mongoFindS, FCond.holdsF, FCond.holdsS]
  · rw [hrF, heqF]
    exact hlF
  · rw [hrF, heqF]
    exact hpF
  · refine ⟨(s.feedback.mergeSort byCreatedDescF).drop 5, ?_, ?_⟩
    · rw [hrF, heqF]
      exact hqF
    · rw [hrF, heqF]
      exact hbF
  · rw [hrS, heqS]
    exact hlS
  · rw [hrS, heqS]
    exact hpS
  · refine ⟨(s.suggestions.mergeSort byCreatedDescS).drop 5, ?_, ?_⟩
    · rw [hrS, heqS]
      exact hqS
    · rw [hrS, heqS]
      exact hbS

/-- Pydantic acceptance condition for a feedback body: required fields
present, category and type legal enum members, rating (when given) in 1..5. -/
theorem parseFeedbackCreate_ok_iff (p : RawFeedbackPayload) :
    (∃ fb, parseFeedbackCreate p = .ok fb) ↔
      (p.title ≠ none ∧ p.description ≠ none ∧
       (∃ c cv, p.category = some c ∧
         FeedbackCategory.ofString c = some cv) ∧
       (∃ t tv, p.type = some t ∧ FeedbackType.ofString t = some tv) ∧
       (∀ r : Int, p.rating = some r → 1 ≤ r ∧ r ≤ 5)) := by
  obtain ⟨tit, des, cat, ty, rat, anon, em, un, idv, stv, prv, cav, uav,
    anv, arv, vov⟩ := p
  cases tit with
  | none => simp [parseFeedbackCreate]
  | some t =>
    cases des with
    | none => simp [parseFeedbackCreate]
    | some d =>
      cases cat with
      | none => simp [parseFeedbackCreate]
      | some cs =>
        cases hc : FeedbackCategory.ofString cs with
        | none => simp [parseFeedbackCreate, hc]
        | some cv =>
          cases ty with
          | none => simp [parseFeedbackCreate, hc]
          | some ts =>
            cases ht : FeedbackType.ofString ts with
            | none => simp [parseFeedbackCreate, hc, ht]
            | some tv =>
              cases rat with
              | none => simp [parseFeedbackCreate, parseRating, hc, ht]
              | some r =>
                by_cases hr : 1 ≤ r ∧ r ≤ 5
                · simp [parseFeedbackCreate, parseRating, hc, ht, hr]
                · simp [parseFeedbackCreate, parseRating, hc, ht, hr]

/-- Pydantic acceptance condition for a suggestion body. -/
theorem parseSuggestionCreate_ok_iff (p : RawSuggestionPayload) :
    (∃ sg, parseSuggestionCreate p = .ok sg) ↔
      (p.title ≠ none ∧ p.description ≠ none ∧
       (∃ c cv, p.category = some c ∧
         FeedbackCategory.ofString c = some cv) ∧
       (∀ r : Int, p.rating = some r → 1 ≤ r ∧ r ≤ 5)) := by
  obtain ⟨tit, des, cat, rat, anon, em, un, eb, idv, stv, prv, cav, uav,
    anv, arv, vov⟩ := p
  cases tit with
  | none => simp [parseSuggestionCreate]
  | some t =>
    cases des with
    | none => simp [parseSuggestionCreate]
    | some d =>
      cases cat with
      | none => simp [parseSuggestionCreate]
      | some cs =>
        cases hc : FeedbackCategory.ofString cs with
        | none => simp [parseSuggestionCreate, hc]
        | some cv =>
          cases rat with
          | none => simp [parseSuggestionCreate, parseRating, hc]
          | some r =>
            by_cases hr : 1 ≤ r ∧ r ≤ 5
            · simp [parseSuggestionCreate, parseRating, hc, hr]
            · simp [parseSuggestionCreate, parseRating, hc, hr]

/-- Claim C6: creation rejects the whole submission with a validation error,
writing nothing, exactly when a required field is missing, a provided rating
lies outside 1..5, or an enum-valued field holds a value outside its set;
otherwise it succeeds and persists the entity. -/
theorem claim_C6_validation (p : RawFeedbackPayload)
    (q : RawSuggestionPayload) (idF idS : String) (nowF nowS : Nat)
    (sF sS : Store) :
    ((∃ r, (create_feedback_route p idF nowF sF).1 = .ok r) ↔
      (p.title ≠ none ∧ p.description ≠ none ∧
       (∃ c cv, p.category = some c ∧
         FeedbackCategory.ofString c = some cv) ∧
       (∃ t tv, p.type = some t ∧ FeedbackType.ofString t = some tv) ∧
       (∀ r : Int, p.rating = some r → 1 ≤ r ∧ r ≤ 5))) ∧
    (∀ e, (create_feedback_route p idF nowF sF).1 = .error e →
      (∃ d, e = .validationError d) ∧
      (create_feedback_route p idF nowF sF).2 = sF) ∧
    (∀ r, (create_feedback_route p idF nowF sF).1 = .ok r →
      (create_feedback_route p idF nowF sF).2.feedback =
        sF.feedback ++ [r] ∧
      (create_feedback_route p idF nowF sF).2.suggestions =
        sF.suggestions) ∧
    ((∃ r, (create_suggestion_route q idS nowS sS).1 = .ok r) ↔
      (q.title ≠ none ∧ q.description ≠ none ∧
       (∃ c cv, q.category = some c ∧
         FeedbackCategory.ofString c = some cv) ∧
       (∀ r : Int, q.rating = some r → 1 ≤ r ∧ r ≤ 5))) ∧
    (∀ e, (create_suggestion_route q idS nowS sS).1 = .error e →
      (∃ d, e = .validationError d) ∧
      (create_suggestion_route q idS nowS sS).2 = sS) ∧
    (∀ r, (create_suggestion_route q idS nowS sS).1 = .ok r →
      (create_suggestion_route q idS nowS sS).2.suggestions =
        sS.suggestions ++ [r] ∧
      (create_suggestion_route q idS nowS sS).2.feedback = sS.feedback) := by
  refine ⟨?_, ?_, ?_, ?_, ?_, ?_⟩
  · refine Iff.trans ?_ (parseFeedbackCreate_ok_iff p)
    cases hp : parseFeedbackCreate p with
    | error e => simp [create_feedback_route, hp]
    | ok fb => simp [create_feedback_route, hp]
  · intro e he
    cases hp : parseFeedbackCreate p with
    | error d =>
      simp only [create_feedback_route, hp] at he ⊢
      exact ⟨⟨d, by simpa using he.symm⟩, by trivial⟩
    | ok fb => simp [create_feedback_route, hp] at he
  · intro r hr
    cases hp : parseFeedbackCreate p with
    | error d => simp [create_feedback_route, hp] at hr
    | ok fb =>
      simp only [create_feedback_route, hp] at hr ⊢
      obtain rfl : _ = r := by simpa using hr
      exact ⟨rfl, rfl⟩
  · refine Iff.trans ?_ (parseSuggestionCreate_ok_iff q)
    cases hp : parseSuggestionCreate q with
    | error e => simp [create_suggestion_route, hp]
    | ok sg => simp [create_suggestion_route, hp]
  · intro e he
    cases hp : parseSuggestionCreate q with
    | error d =>
      simp only [create_suggestion_route, hp] at he ⊢
      exact ⟨⟨d, by simpa using he.symm⟩, by trivial⟩
    | ok sg => simp [create_suggestion_route, hp] at he
  · intro r hr
    cases hp : parseSuggestionCreate q with
    | error d => simp [create_suggestion_route, hp] at hr
    | ok sg =>
      simp only [create_suggestion_route, hp] at hr ⊢
      obtain rfl : _ = r := by simpa using hr
      exact ⟨rfl, rfl⟩

/-- Witness for claim C6: a valid body is accepted, an out-of-range rating is
rejected without touching the store. -/
theorem claim_C6_validation_witness :
    (∃ r, (create_feedback_route sampleRawFeedback "fid" 7 sampleStore).1 =
      .ok r) ∧
    (create_feedback_route { sampleRawFeedback with rating := some 6 }
      "fid" 7 sampleStore).2 = sampleStore := by
  have h1 := claim_C6_validation sampleRawFeedback sampleRawSuggestion
    "fid" "sid" 7 8 sampleStore sampleStore
  have h2 := claim_C6_validation
    { sampleRawFeedback with rating := some 6 } sampleRawSuggestion
    "fid" "sid" 7 8 sampleStore sampleStore
  constructor
  · apply h1.1.mpr
    refine ⟨by simp [sampleRawFeedback], by simp [sampleRawFeedback],
      ⟨"performance", .performance, rfl, rfl⟩,
      ⟨"bug_report", .bug_report, rfl, rfl⟩, ?_⟩
    intro r hr
    have : (2 : Int) = r := by simpa [sampleRawFeedback] using hr
    omega
  · exact (h2.2.1 (.validationError "rating out of range") rfl).2

/-- Witness for claim C5 at a concrete store. -/
theorem claim_C5_admin_dashboard_witness :
    (get_admin_dashboard sampleStore).total_feedback =
      sampleStore.feedback.length ∧
    (get_admin_dashboard sampleStore).recent_feedback.length =
      min 5 sampleStore.feedback.length := by
  have h := claim_C5_admin_dashboard sampleStore
  exact ⟨h.1, h.2.2.2.2.2.1⟩

/-- Witness for claim C7 at a concrete filter combination and store. -/
theorem claim_C7_listing_witness :
    get_feedback (some .pending) none none none 50 0 sampleStore =
      ((sampleStore.feedback.filter
        (specMatchF (some .pending) none none none)).drop 0).take 50 ∧
    (get_feedback (some .pending) none none none 50 0 sampleStore).length ≤
      50 := by
  have h := claim_C7_listing (some .pending) none none none 50 0 sampleStore
  exact ⟨h.1, h.2.1⟩

end FeedbackApp
